import Mathlib

/-!
Verification development for the CellSeg3D napari plugin sources.

The file shallowly embeds the control flow and pure data manipulation of
the four source modules:

* `plugin_crop.py` (class `Cropping`): path checks guarding `start`, and the
  slider-driven sub-volume slicing performed by the nested `set_slice`
  callback of `add_crop_sliders`.
* `plugin_model_training.py` (class `Trainer`): the `check_ready` path
  check, the worker lifecycle driven by `start` and `clean_cache`, the
  yield points of the generator `train`, the train/validation split, and
  the loss/metric plotting logic of `update_loss_plot` and `plot_loss`.
* `plugin_review.py` (class `Reviewer`): the `run_review` control flow and
  the `global_launched_before` flag maintained by `remove_from_viewer`.

Machine integers and numpy floor division are modelled on `Nat`/`Int`;
3D numpy arrays are modelled as nested lists, with numpy basic slicing
(which clamps out-of-range bounds) modelled by `List.drop`/`List.take`.
-/

namespace CellSeg

namespace Crop

/-- The path-related state of the `Cropping` widget read by `start`:
`self.image_path`, `self.label_path`, and the value of the
"Crop labels as well ?" checkbox as read into `self.crop_labels`. -/
structure PathState where
  image_path : String
  label_path : String
  crop_labels : Bool
deriving DecidableEq, Repr

/-- Modelled from the spec: `utils.ENABLE_TEST_MODE` lives in the utils
module of the repository, which is not among the given sources. The spec
describes the production flow only ("path not set -> warn and abort") with
no test-path override, so test mode is modelled as disabled. -/
def ENABLE_TEST_MODE : Bool := false

/-- Hard-coded test image path used by `Cropping.start` in test mode. -/
def testImagePath : String :=
  "C:/Users/Cyril/Desktop/Proj_bachelor/data/visual_tif/volumes/images.tif"

/-- Hard-coded test label path used by `Cropping.start` in test mode. -/
def testLabelPath : String :=
  "C:/Users/Cyril/Desktop/Proj_bachelor/data/visual_tif/labels/testing_im.tif"

/-- `Cropping.check_ready`: warns and returns `False` when
`self.image_path == "" or (self.crop_labels and self.label_path == "")`,
returns `True` otherwise. -/
def check_ready (s : PathState) : Bool :=
  if s.image_path = "" ∨ (s.crop_labels = true ∧ s.label_path = "") then
    false
  else
    true

/-- Observable steps of `Cropping.start` after the path check. -/
inductive CropStep
  | warnAbort
  | loadImage
  | loadLabels
  | addImageLayer
  | addLabelsLayer
  | dockQuicksave
  | dockSliders
deriving DecidableEq, Repr

/-- The sequence of observable actions of `Cropping.start`: the test-mode
path override, then the `check_ready` guard (returning immediately on
failure), then loading the image (and labels when requested), adding the
viewer layers, docking the quicksave widget, and docking the crop sliders
via `add_crop_sliders`. -/
def start_trace (s0 : PathState) : List CropStep :=
  let s :=
    if ENABLE_TEST_MODE = true then
      { s0 with
        image_path := testImagePath,
        label_path := if s0.crop_labels then testLabelPath else s0.label_path }
    else s0
  if check_ready s = false then
    [CropStep.warnAbort]
  else
    [CropStep.loadImage]
      ++ (if s.crop_labels then [CropStep.loadLabels] else [])
      ++ [CropStep.addImageLayer]
      ++ (if s.crop_labels then [CropStep.addLabelsLayer] else [])
      ++ [CropStep.dockQuicksave, CropStep.dockSliders]

/-- A 2D plane of a volume, as a list of rows. -/
abbrev Plane := List (List Int)

/-- A 3D volume (numpy array of shape `(z, y, x)`), as a list of planes. -/
abbrev Stack := List Plane

/-- Numpy basic slicing `stack[i : i + cz, j : j + cy, k : k + cx]`:
out-of-range bounds clamp, exactly as `List.drop`/`List.take` do. -/
def slice3d (stack : Stack) (i j k cz cy cx : Nat) : Stack :=
  ((stack.drop i).take cz).map fun plane =>
    ((plane.drop j).take cy).map fun row => (row.drop k).take cx

/-- The shape `(z, y, x)` of a nested-list volume (length of each nesting
level, using the first element at each level). -/
def shape3d (stack : Stack) : Nat × Nat × Nat :=
  (stack.length, (stack.headD []).length, ((stack.headD []).headD []).length)

/-- A `(z, y, x)` integer vector, as used for layer translate and scale. -/
structure V3 where
  z : Nat
  y : Nat
  x : Nat
deriving DecidableEq, Repr

/-- Axis index into a `(z, y, x)` vector: `set_slice` receives `0`, `1`
or `2` for the z, y and x slider respectively. -/
inductive Axis
  | axZ
  | axY
  | axX
deriving DecidableEq, Repr

/-- `izyx[axis] = idx`: replace one coordinate of a `(z, y, x)` vector. -/
def V3.set (v : V3) (a : Axis) (idx : Nat) : V3 :=
  match a with
  | Axis.axZ => { v with z := idx }
  | Axis.axY => { v with y := idx }
  | Axis.axX => { v with x := idx }

/-- Componentwise floor division, modelling `translate // scale`. -/
def V3.fdiv (a b : V3) : V3 :=
  ⟨a.z / b.z, a.y / b.y, a.x / b.x⟩

/-- Componentwise product, modelling `scale * izyx`. -/
def V3.cmul (a b : V3) : V3 :=
  ⟨a.z * b.z, a.y * b.y, a.x * b.x⟩

/-- A napari image layer as used by `set_slice`: its data, its translate
vector and its scale vector. -/
structure Layer where
  data : Stack
  translate : V3
  scale : V3
deriving DecidableEq, Repr

/-- The state captured by the `set_slice` closure inside
`Cropping.add_crop_sliders`: the loaded volume `image_stack` (and
`label_stack`), the two cropped layers, the crop sizes
`self._crop_size_x/_y/_z` read from the three spinboxes, and the stored
origin `self._x`, `self._y`, `self._z`. -/
structure Session where
  image_stack : Stack
  label_stack : Stack
  highres : Layer
  labelsLayer : Layer
  crop_size_x : Nat
  crop_size_y : Nat
  crop_size_z : Nat
  st_x : Nat
  st_y : Nat
  st_z : Nat
deriving DecidableEq, Repr

/-- The nested `set_slice(axis, value, crp_lbl)` callback of
`Cropping.add_crop_sliders`: recovers the crop origin as
`translate // scale`, replaces the coordinate of the moved axis by the
slider value, re-slices the loaded volume into the cropped layer(s),
updates the layer translate to `scale * izyx`, and stores the new origin
in `self._x`, `self._y`, `self._z`. -/
def set_slice (s : Session) (axis : Axis) (value : Nat) (crp_lbl : Bool) :
    Session :=
  let idx := value
  let scale := s.highres.scale
  let izyx := (V3.fdiv s.highres.translate scale).set axis idx
  let i := izyx.z
  let j := izyx.y
  let k := izyx.x
  let cropx := s.crop_size_x
  let cropy := s.crop_size_y
  let cropz := s.crop_size_z
  let hl :=
    { s.highres with
      data := slice3d s.image_stack i j k cropz cropy cropx,
      translate := V3.cmul scale izyx }
  let ll :=
    if crp_lbl then
      { s.labelsLayer with
        data := slice3d s.label_stack i j k cropz cropy cropx,
        translate := V3.cmul scale izyx }
    else s.labelsLayer
  { s with
    highres := hl,
    labelsLayer := ll,
    st_x := k,
    st_y := j,
    st_z := i }

/-- The slider upper bounds of `Cropping.add_crop_sliders`:
`ends = np.asarray(image_stack.shape) - np.asarray(crop_sizes) + 1`, where
`image_stack.shape` is `(z, y, x)` and
`crop_sizes = (self._crop_size_x, self._crop_size_y, self._crop_size_z)`.
The z, y and x sliders get `max = ends[0], ends[1], ends[2]`
respectively (inclusive, with `min = 0`). -/
def slider_ends (shape : Nat × Nat × Nat) (crop_sizes : Nat × Nat × Nat) :
    Int × Int × Int :=
  ((shape.1 : Int) - (crop_sizes.1 : Int) + 1,
   (shape.2.1 : Int) - (crop_sizes.2.1 : Int) + 1,
   (shape.2.2 : Int) - (crop_sizes.2.2 : Int) + 1)

end Crop

namespace Trainer

/-- `Trainer.check_ready`: returns `True` when
`self.images_filepaths != [""] and self.labels_filepaths != [""]`,
otherwise warns and returns `False`. -/
def check_ready (images_filepaths labels_filepaths : List String) : Bool :=
  if images_filepaths ≠ [""] ∧ labels_filepaths ≠ [""] then
    true
  else
    false

/-- Outcome of the guard at the top of `Trainer.start`: abort immediately
with nothing done, or fall through to the worker-handling code. -/
inductive StartGate
  | abortedNoWorker
  | proceeded
deriving DecidableEq, Repr

/-- The guard of `Trainer.start`: `if not self.check_ready(): return`
before any worker is created or started. -/
def startGate (images_filepaths labels_filepaths : List String) : StartGate :=
  if check_ready images_filepaths labels_filepaths then
    StartGate.proceeded
  else
    StartGate.abortedNoWorker

/-- Worker-lifecycle state of the `Trainer`: `self.worker`
(`none` = `None`, `some r` = a worker object whose `is_running` is `r`),
together with a ghost count of the worker objects currently in
existence (created by `self.worker = self.train()` and destroyed by
`clean_cache`). -/
structure WorkerState where
  worker : Option Bool
  live : Nat
deriving DecidableEq, Repr

/-- The initial `Trainer` state: `self.worker = None` and no worker
object exists. -/
def initWorkerState : WorkerState := ⟨none, 0⟩

/-- Events driving the worker lifecycle: a click on the start/stop button
(with the result of `check_ready`), and the finished signal of the
worker, which is connected to `clean_cache`. -/
inductive Ev
  | clickStart (ready : Bool)
  | workerFinished
deriving DecidableEq, Repr

/-- One step of the worker lifecycle, following `Trainer.start` and
`Trainer.clean_cache`:

* `clickStart` with `check_ready` false returns with the state unchanged;
* otherwise, when `self.worker` is a running worker, `start` only
  requests a stop (`self.worker.quit()`), keeping the same object;
* when `self.worker` exists but is not running, `start` restarts that
  same object (`self.worker.start()`), creating nothing;
* when `self.worker is None`, `start` creates one new worker
  (`self.worker = self.train()`, auto-started by `thread_worker`);
* the finished signal triggers `clean_cache`, which is the only place
  where `self.worker` is reset to `None` (`del self.worker;
  self.worker = None`), destroying the finished object. -/
def step (s : WorkerState) : Ev → WorkerState
  | Ev.clickStart ready =>
    if ready = false then s
    else
      match s.worker with
      | some true => s
      | some false => { s with worker := some true }
      | none => { worker := some true, live := s.live + 1 }
  | Ev.workerFinished =>
    match s.worker with
    | some _ => { worker := none, live := s.live - 1 }
    | none => s

/-- Run a sequence of events from the initial `Trainer` state. -/
def run (evs : List Ev) : WorkerState :=
  evs.foldl step initWorkerState

/-- Coupling invariant: the number of existing worker objects is `1`
exactly when the `self.worker` slot is occupied, `0` otherwise. -/
def workerInv (s : WorkerState) : Prop :=
  s.live = if s.worker.isSome then 1 else 0

/-- The yield placement of the generator `Trainer.train`: inside the
epoch loop `for epoch in range(max_epochs)`, the body `yield self` runs
exactly when `(epoch + 1) % val_interval == 0` (after the validation
step of that epoch). -/
def yieldsAfterEpoch (val_interval epoch : Nat) : Bool :=
  (epoch + 1) % val_interval == 0

/-- Scan of the training loop from epoch `e` with `fuel` epochs left
before `max_epochs`: the first epoch at whose end the generator yields,
which is the first point where the napari generator worker can observe a
pending quit request. Returns `none` when the loop finishes without
reaching a yield point. -/
def firstCheckFrom (val_interval : Nat) : Nat → Nat → Option Nat
  | _, 0 => none
  | e, fuel + 1 =>
    if yieldsAfterEpoch val_interval e then some e
    else firstCheckFrom val_interval (e + 1) fuel

/-- The epoch at which a quit request issued during epoch `q` is first
observed by the worker: the first yield point of `Trainer.train` at or
after epoch `q`, within the `max_epochs` epochs of the loop. -/
def firstQuitCheck (val_interval q max_epochs : Nat) : Option Nat :=
  firstCheckFrom val_interval q (max_epochs - q)

/-- The index `int(len(data_dicts) * 0.9)` used by `Trainer.train` to
split the data into training and validation files. The IEEE-double
product `len * 0.9` has relative error below `3e-16`, so its floor
agrees with `9 * n / 10` for every realistic file count `n`. -/
def splitIndex (n : Nat) : Nat := 9 * n / 10

/-- `train_files = data_dicts[0 : int(len(data_dicts) * 0.9)]`. -/
def train_files (data : List String) : List String :=
  data.take (splitIndex data.length)

/-- `val_files = data_dicts[int(len(data_dicts) * 0.9) :]`. -/
def val_files (data : List String) : List String :=
  data.drop (splitIndex data.length)

/-- Number of batches a MONAI `DataLoader` (default `drop_last=False`)
yields over a dataset of `size` items with batch size `batch`: the
number of iterations of the inner `for batch_data in train_loader`
loop, hence the final value of `step` in one epoch. -/
def numBatches (size batch : Nat) : Nat := (size + batch - 1) / batch

/-- The final value of `step` in one epoch of `Trainer.train`: the train
`PatchDataset` holds `samples_per_image = num_samples` patches per
training file, and the loop increments `step` once per batch. -/
def epochSteps (data : List String) (num_samples batch : Nat) : Nat :=
  numBatches ((train_files data).length * num_samples) batch

/-- What `Trainer.update_loss_plot` does on one yield: nothing, create
the canvas with both subplots and draw them, or clear both subplots and
redraw them. The curves record the plotted `(x, y)` point lists. -/
inductive PlotAction
  | noChange
  | createPlot (lossCurve metricCurve : List (Nat × Int))
  | redraw (lossCurve metricCurve : List (Nat × Int))
deriving DecidableEq, Repr

/-- The loss curve drawn by `Trainer.plot_loss`:
`x = [i + 1 for i in range(len(loss))]`, `y = loss`. -/
def lossCurve (loss : List Int) : List (Nat × Int) :=
  ((List.range loss.length).map fun i => i + 1).zip loss

/-- The Dice-metric curve drawn by `Trainer.plot_loss`:
`x = [self.val_interval * (i + 1) for i in range(len(dice_metric))]`,
`y = dice_metric`. -/
def metricCurve (val_interval : Nat) (metric : List Int) :
    List (Nat × Int) :=
  ((List.range metric.length).map fun i => val_interval * (i + 1)).zip metric

/-- `Trainer.update_loss_plot`: with `epoch = len(self.epoch_loss_values)`,
returns unchanged when `epoch < self.val_interval * 2`, creates the
canvas and plots both curves when `epoch == self.val_interval * 2`, and
clears both subplots and replots the full curves otherwise. -/
def update_loss_plot (val_interval : Nat) (loss metric : List Int) :
    PlotAction :=
  let epoch := loss.length
  if epoch < val_interval * 2 then
    PlotAction.noChange
  else if epoch = val_interval * 2 then
    PlotAction.createPlot (lossCurve loss) (metricCurve val_interval metric)
  else
    PlotAction.redraw (lossCurve loss) (metricCurve val_interval metric)

end Trainer

namespace Review

/-- The state of the `Reviewer` read by `run_review`, `build` and
`remove_from_viewer`: the two paths, the folder-mode checkbox as read
into `self.as_folder`, the module-level flag `global_launched_before`,
and whether the widget is currently docked in the viewer (removal
raises `LookupError` otherwise). -/
structure RState where
  image_path : String
  label_path : String
  as_folder : Bool
  launched_before : Bool
  docked : Bool
deriving DecidableEq, Repr

/-- Observable steps of `Reviewer.run_review`. -/
inductive ReviewStep
  | warnAbort
  | loadImages (path : String)
  | makeBlankLabels
  | raiseUnboundLocalError
  | loadLabels (path : String)
  | tryLoadRawMasks
  | warnMultiSession
  | launchInNewWindow
  | launchInCurrentViewer
deriving DecidableEq, Repr

/-- The final branch of `Reviewer.run_review`: with
`global_launched_before` set it launches the review in a brand-new
viewer window and warns about the multiple sessions (then closes the
old viewer); otherwise it launches in the current viewer. -/
def launchSteps (launched_before : Bool) : List ReviewStep :=
  if launched_before then
    [ReviewStep.launchInNewWindow, ReviewStep.warnMultiSession]
  else
    [ReviewStep.launchInCurrentViewer]

/-- The sequence of observable actions of `Reviewer.run_review` (test
mode disabled, as for `Crop.start_trace`): it unconditionally loads the
images; when `self.label_path == ""`, the local `labels` is assigned
only under `if self.as_folder:`, so with folder mode off the subsequent
`for i in range(len(labels))` raises an unhandled `UnboundLocalError`
and the call ends there, before the raw-mask load and before any
launch, while with folder mode on a stack of blank labels is saved
(this branch also reassigns `self.label_path` to the new blank-labels
directory, which is not tracked here since no verified property reads
the path afterwards); with a non-empty label path the saved masks are
loaded. A completed label step is followed by the raw-mask load (whose
`UnknownFormatError`/`FileNotFoundError` are caught, so it always
proceeds) and then the launch branch on `global_launched_before`.
There is no path check and no warn-and-abort return anywhere in the
function. -/
def run_review_trace (s : RState) : List ReviewStep :=
  ReviewStep.loadImages s.image_path ::
    (if s.label_path = "" then
      (if s.as_folder then
        ReviewStep.makeBlankLabels ::
          ReviewStep.tryLoadRawMasks :: launchSteps s.launched_before
       else
        [ReviewStep.raiseUnboundLocalError])
     else
      ReviewStep.loadLabels s.label_path ::
        ReviewStep.tryLoadRawMasks :: launchSteps s.launched_before)

/-- `Reviewer.remove_from_viewer`: first
`if global_launched_before: global_launched_before = False`, then
`try: self._viewer.window.remove_dock_widget(self)` with
`except LookupError: return`. The flag is reset before the removal is
attempted, so it is `False` afterwards whether or not the removal
raises. -/
def remove_from_viewer (s : RState) : RState :=
  let s1 :=
    if s.launched_before = true then { s with launched_before := false }
    else s
  if s1.docked then { s1 with docked := false } else s1

/-- The state change of `Reviewer.run_review`: when the empty-label
branch raises `UnboundLocalError` (folder mode off), the call ends
before the launch branch, so neither the flag nor the docking changes
and no window opens (the preceding `self.label_path` reassignment is
not tracked, as in `run_review_trace`); otherwise, on a first launch
(`global_launched_before` false) the widget is removed from the current
viewer and the flag is set, and on a later launch the review opens in a
new window (the flag stays set). The returned `Bool` records whether a
new viewer window was opened. -/
def run_review_update (s : RState) : RState × Bool :=
  if s.label_path = "" ∧ s.as_folder = false then
    (s, false)
  else if s.launched_before then
    (s, true)
  else
    let s1 := remove_from_viewer s
    ({ s1 with launched_before := true }, false)

/-- `Reviewer.build` adds the red warning label and emits the
active-session warning exactly when `global_launched_before` is set. -/
def buildWarnsActiveSession (s : RState) : Bool :=
  s.launched_before

end Review

end CellSeg

namespace CellSeg

/-! Demonstration inputs for the slider-bound analysis. -/

/-- A concrete 4 by 4 by 4 volume of zeros. -/
def demoStack : Crop.Stack :=
  List.replicate 4 (List.replicate 4 (List.replicate 4 (0 : Int)))

/-- The cropping session right after `add_crop_sliders` on `demoStack`
with all three spinboxes at 2: the cropped layer holds
`image_stack[:2, :2, :2]`, translate is zero and scale is one. -/
def demoSession : Crop.Session :=
  { image_stack := demoStack
    label_stack := []
    highres :=
      { data := Crop.slice3d demoStack 0 0 0 2 2 2
        translate := ⟨0, 0, 0⟩
        scale := ⟨1, 1, 1⟩ }
    labelsLayer := { data := [], translate := ⟨0, 0, 0⟩, scale := ⟨1, 1, 1⟩ }
    crop_size_x := 2
    crop_size_y := 2
    crop_size_z := 2
    st_x := 0
    st_y := 0
    st_z := 0 }

/-! Helper lemmas. -/

theorem firstCheckFrom_spec (v : Nat) :
    ∀ fuel e r, Trainer.firstCheckFrom v e fuel = some r →
      e ≤ r ∧ r < e + fuel ∧ Trainer.yieldsAfterEpoch v r = true ∧
        ∀ e', e ≤ e' → e' < r → Trainer.yieldsAfterEpoch v e' = false := by
  intro fuel
  induction fuel with
  | zero => intro e r h; simp [Trainer.firstCheckFrom] at h
  | succ n ih =>
    intro e r h
    rw [Trainer.firstCheckFrom] at h
    by_cases hy : Trainer.yieldsAfterEpoch v e = true
    · simp [hy] at h
      subst h
      exact ⟨le_refl _, by omega, hy, fun e' h1 h2 => absurd h1 (by omega)⟩
    · simp [hy] at h
      obtain ⟨h1, h2, h3, h4⟩ := ih (e + 1) r h
      refine ⟨by omega, by omega, h3, ?_⟩
      intro e' he1 he2
      by_cases he : e' = e
      · subst he; simpa using hy
      · exact h4 e' (by omega) he2

theorem step_preserves_workerInv (s : Trainer.WorkerState) (e : Trainer.Ev)
    (h : Trainer.workerInv s) : Trainer.workerInv (Trainer.step s e) := by
  cases e with
  | clickStart ready =>
    by_cases hr : ready = false
    · simpa [Trainer.step, hr] using h
    · cases hw : s.worker with
      | none =>
        simp [Trainer.workerInv, hw] at h
        simp [Trainer.step, hr, hw, Trainer.workerInv, h]
      | some r =>
        cases r with
        | true => simpa [Trainer.step, hr, hw] using h
        | false =>
          simp [Trainer.workerInv, hw] at h
          simp [Trainer.step, hr, hw, Trainer.workerInv, h]
  | workerFinished =>
    cases hw : s.worker with
    | none => simpa [Trainer.step, hw] using h
    | some r =>
      simp [Trainer.workerInv, hw] at h
      simp [Trainer.step, hw, Trainer.workerInv, h]

theorem foldl_preserves_workerInv (evs : List Trainer.Ev) :
    ∀ s, Trainer.workerInv s → Trainer.workerInv (evs.foldl Trainer.step s) := by
  induction evs with
  | nil => intro s h; simpa using h
  | cons e evs ih =>
    intro s h
    exact ih _ (step_preserves_workerInv s e h)

end CellSeg

namespace CellSeg

/-- C1 (amended): a quit request issued during epoch `q` of the training
loop is observed by the generator worker at the first yield point at or
after `q`, which is the next validation step: the first epoch `r` with
`(r + 1) % val_interval = 0`, and no earlier epoch at or after `q` is a
yield point, so the worker does not in general stop at the next loop
iteration. -/
theorem quit_observed_at_next_validation_step
    (v q maxE r : Nat) (h : Trainer.firstQuitCheck v q maxE = some r) :
    q ≤ r ∧ r < maxE ∧ (r + 1) % v = 0 ∧
      ∀ e, q ≤ e → e < r → (e + 1) % v ≠ 0 := by
  obtain ⟨h1, h2, h3, h4⟩ := firstCheckFrom_spec v (maxE - q) q r h
  have hqm : q < maxE := by
    rcases Nat.lt_or_ge q maxE with hlt | hge
    · exact hlt
    · exfalso
      have : maxE - q = 0 := by omega
      rw [Trainer.firstQuitCheck, this] at h
      simp [Trainer.firstCheckFrom] at h
  refine ⟨h1, by omega, ?_, ?_⟩
  · simpa [Trainer.yieldsAfterEpoch] using h3
  · intro e he1 he2
    have := h4 e he1 he2
    simpa [Trainer.yieldsAfterEpoch] using this

/-- Witness for C1: with `val_interval = 2`, `max_epochs = 4` and a quit
requested during epoch 0, the quit is observed at epoch 1. -/
theorem quit_observed_at_next_validation_step_witness :
    0 ≤ 1 ∧ 1 < 4 ∧ (1 + 1) % 2 = 0 ∧
      ∀ e, 0 ≤ e → e < 1 → (e + 1) % 2 ≠ 0 :=
  quit_observed_at_next_validation_step 2 0 4 1 (by decide)

/-- Counterexample for C1 as stated: with `val_interval = 3` and
`max_epochs = 6`, a quit requested during epoch 0 is first observed at
epoch 2, not at the next loop iteration (epoch 1). -/
theorem quit_check_skips_next_iteration :
    Trainer.firstQuitCheck 3 0 6 = some 2 ∧ ¬(2 ≤ 0 + 1) := by decide

/-- C2: the code of `Trainer.check_ready` only rejects the exact value
`[""]`; an empty file-path list passes the check, so `Trainer.start`
proceeds to create a training worker instead of warning and aborting,
contradicting both the claim and the method docstring. When both lists
hold real paths the check passes, as claimed. -/
theorem empty_filepath_list_passes_check :
    Trainer.check_ready [] ["labels.tif"] = true ∧
      Trainer.startGate [] ["labels.tif"] = Trainer.StartGate.proceeded ∧
      Trainer.check_ready ["im.tif"] ["labels.tif"] = true ∧
      Trainer.check_ready [""] ["labels.tif"] = false := by
  refine ⟨by decide, by decide, by decide, by decide⟩

/-- C3: `Cropping.start` warns and returns before loading any image,
adding any layer, or docking any widget exactly when the image path, or
(with label cropping enabled) the label path, is empty; with all
required paths non-empty, `check_ready` returns `True` and the cropping
process starts. -/
theorem crop_start_path_guard (s : Crop.PathState) :
    (s.image_path = "" ∨ (s.crop_labels = true ∧ s.label_path = "") →
      Crop.check_ready s = false ∧
        Crop.start_trace s = [Crop.CropStep.warnAbort]) ∧
    (s.image_path ≠ "" ∧ (s.crop_labels = true → s.label_path ≠ "") →
      Crop.check_ready s = true ∧
        Crop.CropStep.warnAbort ∉ Crop.start_trace s ∧
        Crop.CropStep.loadImage ∈ Crop.start_trace s) := by
  constructor
  · intro hbad
    have hc : Crop.check_ready s = false := by
      simp [Crop.check_ready]
      tauto
    refine ⟨hc, ?_⟩
    simp [Crop.start_trace, Crop.ENABLE_TEST_MODE, hc]
  · intro hgood
    obtain ⟨h1, h2⟩ := hgood
    have hc : Crop.check_ready s = true := by
      by_cases hl : s.crop_labels = true
      · simp [Crop.check_ready, h1, hl, h2 hl]
      · simp [Crop.check_ready, h1, hl]
    refine ⟨hc, ?_, ?_⟩
    · by_cases hl : s.crop_labels <;>
        simp [Crop.start_trace, Crop.ENABLE_TEST_MODE, hc, hl]
    · simp [Crop.start_trace, Crop.ENABLE_TEST_MODE, hc]

/-- Witness for C3: an empty image path aborts, and a state with both
paths set passes the check and starts. -/
theorem crop_start_path_guard_witness :
    (Crop.check_ready ⟨"", "lab", true⟩ = false ∧
      Crop.start_trace ⟨"", "lab", true⟩ = [Crop.CropStep.warnAbort]) ∧
    (Crop.check_ready ⟨"im.tif", "lab.tif", true⟩ = true ∧
      Crop.CropStep.warnAbort ∉ Crop.start_trace ⟨"im.tif", "lab.tif", true⟩ ∧
      Crop.CropStep.loadImage ∈ Crop.start_trace ⟨"im.tif", "lab.tif", true⟩) :=
  ⟨(crop_start_path_guard ⟨"", "lab", true⟩).1 (Or.inl rfl),
   (crop_start_path_guard ⟨"im.tif", "lab.tif", true⟩).2
     ⟨by decide, fun _ => by decide⟩⟩

end CellSeg

namespace CellSeg

/-- Counterexample for C4 as stated: with a non-empty image path and an
empty label path, `run_review` never warns-and-aborts. In folder mode it
loads the images, silently creates a blank label dataset, and launches a
review session in the current viewer; with folder mode off it still
loads the images and then dies on an unhandled `UnboundLocalError` — in
neither case does it warn and abort before the action starts. -/
theorem review_launches_despite_empty_label_path :
    Review.run_review_trace ⟨"im.tif", "", true, false, true⟩ =
      [Review.ReviewStep.loadImages "im.tif",
       Review.ReviewStep.makeBlankLabels,
       Review.ReviewStep.tryLoadRawMasks,
       Review.ReviewStep.launchInCurrentViewer] ∧
    Review.ReviewStep.warnAbort ∉
      Review.run_review_trace ⟨"im.tif", "", true, false, true⟩ ∧
    Review.run_review_trace ⟨"im.tif", "", false, false, true⟩ =
      [Review.ReviewStep.loadImages "im.tif",
       Review.ReviewStep.raiseUnboundLocalError] ∧
    Review.ReviewStep.warnAbort ∉
      Review.run_review_trace ⟨"im.tif", "", false, false, true⟩ := by
  refine ⟨by decide, by decide, by decide, by decide⟩

/-- C4 (amended): `Reviewer.run_review` performs no path-emptiness check
and never warns-and-aborts: in every state it first loads the images
from the stored image path; with an empty label path it creates a blank
label dataset and launches the review when folder mode is on, but
raises an unhandled `UnboundLocalError` before any launch when folder
mode is off; with a non-empty label path it loads the saved masks and
launches the review (in the current viewer on a first launch, in a new
window otherwise). -/
theorem run_review_never_aborts (s : Review.RState) :
    Review.ReviewStep.warnAbort ∉ Review.run_review_trace s ∧
    Review.ReviewStep.loadImages s.image_path ∈ Review.run_review_trace s ∧
    (s.label_path = "" ∧ s.as_folder = true →
      Review.ReviewStep.makeBlankLabels ∈ Review.run_review_trace s ∧
        (if s.launched_before then Review.ReviewStep.launchInNewWindow
         else Review.ReviewStep.launchInCurrentViewer) ∈
          Review.run_review_trace s) ∧
    (s.label_path = "" ∧ s.as_folder = false →
      Review.run_review_trace s =
        [Review.ReviewStep.loadImages s.image_path,
         Review.ReviewStep.raiseUnboundLocalError]) ∧
    (s.label_path ≠ "" →
      (if s.launched_before then Review.ReviewStep.launchInNewWindow
       else Review.ReviewStep.launchInCurrentViewer) ∈
        Review.run_review_trace s) := by
  refine ⟨?_, ?_, ?_, ?_, ?_⟩
  · by_cases hl : s.label_path = "" <;>
      by_cases hf : s.as_folder <;>
        by_cases hb : s.launched_before <;>
          simp [Review.run_review_trace, Review.launchSteps, hl, hf, hb]
  · simp [Review.run_review_trace]
  · rintro ⟨hl, hf⟩
    by_cases hb : s.launched_before <;>
      simp [Review.run_review_trace, Review.launchSteps, hl, hf, hb]
  · rintro ⟨hl, hf⟩
    simp [Review.run_review_trace, hl, hf]
  · intro hl
    by_cases hb : s.launched_before <;>
      simp [Review.run_review_trace, Review.launchSteps, hl, hb]

/-- Witness for C4 (amended): all three label-path cases exercised, two
of them with an empty label path (folder mode on and off) and one with
a set label path. -/
theorem run_review_never_aborts_witness :
    (Review.ReviewStep.warnAbort ∉
        Review.run_review_trace ⟨"a.tif", "", true, true, true⟩ ∧
      Review.ReviewStep.makeBlankLabels ∈
        Review.run_review_trace ⟨"a.tif", "", true, true, true⟩) ∧
    Review.run_review_trace ⟨"a.tif", "", false, true, true⟩ =
      [Review.ReviewStep.loadImages "a.tif",
       Review.ReviewStep.raiseUnboundLocalError] ∧
    Review.ReviewStep.launchInCurrentViewer ∈
      Review.run_review_trace ⟨"a.tif", "lab", false, false, true⟩ :=
  ⟨⟨(run_review_never_aborts ⟨"a.tif", "", true, true, true⟩).1,
    ((run_review_never_aborts ⟨"a.tif", "", true, true, true⟩).2.2.1
      ⟨rfl, rfl⟩).1⟩,
   (run_review_never_aborts ⟨"a.tif", "", false, true, true⟩).2.2.2.1
     ⟨rfl, rfl⟩,
   (run_review_never_aborts ⟨"a.tif", "lab", false, false, true⟩).2.2.2.2
     (by decide)⟩

/-- C5: starting from the initial `Trainer` state, no sequence of
start-button clicks and worker-finished signals ever yields more than
one simultaneously existing training worker: `start` creates a worker
only when the slot is `None`, restarts the existing one otherwise, and
only `clean_cache` (on the finished signal) resets the slot. -/
theorem at_most_one_training_worker (evs : List Trainer.Ev) :
    (Trainer.run evs).live ≤ 1 := by
  have h := foldl_preserves_workerInv evs Trainer.initWorkerState
    (by simp [Trainer.workerInv, Trainer.initWorkerState])
  rw [Trainer.run]
  rw [Trainer.workerInv] at h
  split at h <;> omega

/-- C6: `set_slice` is pure array slicing into the loaded volume: the
cropped layer receives
`image_stack[i : i + cropz, j : j + cropy, k : k + cropx]` where
`(i, j, k)` is the previous origin `translate // scale` with the moved
axis replaced by the slider value and `(cropz, cropy, cropx)` are the
spinbox crop sizes; the stored origin `(_z, _y, _x)` becomes
`(i, j, k)` and the loaded volume is unchanged. -/
theorem set_slice_is_pure_slicing
    (s : Crop.Session) (a : Crop.Axis) (v : Nat) (l : Bool) :
    (Crop.set_slice s a v l).highres.data =
      Crop.slice3d s.image_stack
        ((Crop.V3.fdiv s.highres.translate s.highres.scale).set a v).z
        ((Crop.V3.fdiv s.highres.translate s.highres.scale).set a v).y
        ((Crop.V3.fdiv s.highres.translate s.highres.scale).set a v).x
        s.crop_size_z s.crop_size_y s.crop_size_x ∧
    (Crop.set_slice s a v l).st_z =
      ((Crop.V3.fdiv s.highres.translate s.highres.scale).set a v).z ∧
    (Crop.set_slice s a v l).st_y =
      ((Crop.V3.fdiv s.highres.translate s.highres.scale).set a v).y ∧
    (Crop.set_slice s a v l).st_x =
      ((Crop.V3.fdiv s.highres.translate s.highres.scale).set a v).x ∧
    (Crop.set_slice s a v l).image_stack = s.image_stack := by
  refine ⟨rfl, rfl, rfl, rfl, rfl⟩

/-- C7: on each yield, `update_loss_plot` does nothing while fewer than
`2 * val_interval` epochs are recorded, creates the canvas with both
subplots at exactly `2 * val_interval` epochs, and clears and redraws
both subplots afterwards; the loss curve runs over epochs `1..n` and the
metric curve over epochs `val_interval * (i + 1)`. -/
theorem update_loss_plot_branches (v : Nat) (loss metric : List Int) :
    (loss.length < 2 * v →
      Trainer.update_loss_plot v loss metric = Trainer.PlotAction.noChange) ∧
    (loss.length = 2 * v →
      Trainer.update_loss_plot v loss metric =
        Trainer.PlotAction.createPlot (Trainer.lossCurve loss)
          (Trainer.metricCurve v metric)) ∧
    (2 * v < loss.length →
      Trainer.update_loss_plot v loss metric =
        Trainer.PlotAction.redraw (Trainer.lossCurve loss)
          (Trainer.metricCurve v metric)) ∧
    (Trainer.lossCurve loss).map Prod.fst =
      (List.range loss.length).map (fun i => i + 1) ∧
    (Trainer.metricCurve v metric).map Prod.fst =
      (List.range metric.length).map (fun i => v * (i + 1)) := by
  refine ⟨?_, ?_, ?_, ?_, ?_⟩
  · intro h
    simp [Trainer.update_loss_plot, Nat.mul_comm v 2, h]
  · intro h
    simp [Trainer.update_loss_plot, Nat.mul_comm v 2, h]
  · intro h
    rw [Trainer.update_loss_plot]
    simp only [Nat.mul_comm v 2]
    rw [if_neg (by omega), if_neg (by omega)]
  · rw [Trainer.lossCurve]
    rw [List.map_fst_zip]
    simp
  · rw [Trainer.metricCurve]
    rw [List.map_fst_zip]
    simp

/-- Witness for C7: all three branches at `val_interval = 2`. -/
theorem update_loss_plot_branches_witness :
    Trainer.update_loss_plot 2 [1] [] = Trainer.PlotAction.noChange ∧
    Trainer.update_loss_plot 2 [1, 2, 3, 4] [5, 6] =
      Trainer.PlotAction.createPlot (Trainer.lossCurve [1, 2, 3, 4])
        (Trainer.metricCurve 2 [5, 6]) ∧
    Trainer.update_loss_plot 2 [1, 2, 3, 4, 5] [5, 6] =
      Trainer.PlotAction.redraw (Trainer.lossCurve [1, 2, 3, 4, 5])
        (Trainer.metricCurve 2 [5, 6]) :=
  ⟨(update_loss_plot_branches 2 [1] []).1 (by decide),
   (update_loss_plot_branches 2 [1, 2, 3, 4] [5, 6]).2.1 (by decide),
   (update_loss_plot_branches 2 [1, 2, 3, 4, 5] [5, 6]).2.2.1 (by decide)⟩

/-- C8: the slider bounds of `add_crop_sliders` let the crop window
escape the volume: on a 4x4x4 volume with all crop sizes 2 the z slider
bound is `ends[0] = 4 - 2 + 1 = 3`, and moving the z slider to 3 yields
a cropped array of shape `(1, 2, 2)` instead of `(cropz, cropy, cropx)
= (2, 2, 2)` (numpy clamps the overrunning slice). -/
theorem slider_bound_lets_crop_escape_volume :
    Crop.slider_ends (Crop.shape3d demoStack) (2, 2, 2) = (3, 3, 3) ∧
    Crop.shape3d
        ((Crop.set_slice demoSession Crop.Axis.axZ 3 false).highres.data) =
      (1, 2, 2) ∧
    Crop.shape3d
        ((Crop.set_slice demoSession Crop.Axis.axZ 3 false).highres.data) ≠
      (2, 2, 2) := by
  refine ⟨by decide, by decide, by decide⟩

/-- Counterexample for C9 as stated: a one-element data list is
non-empty, yet `train_files = data[0 : int(0.9 * 1)] = data[0:0]` is
empty, and the epoch loop then runs zero steps, so `epoch_loss /= step`
divides by zero. -/
theorem singleton_dataset_empty_train_split :
    Trainer.train_files ["vol0.tif"] = [] ∧
      (["vol0.tif"] : List String) ≠ [] ∧
      Trainer.epochSteps ["vol0.tif"] 15 1 = 0 := by
  refine ⟨by decide, by decide, by decide⟩

/-- C9 (amended): for every data list with at least two elements the
`0.9` train/validation split yields a non-empty training partition, and
(with at least one sample per image and a positive batch size) each
epoch processes at least one batch, so the per-epoch averaging division
is by a positive `step`. -/
theorem train_split_nonempty_of_two (data : List String)
    (num_samples batch : Nat) (hd : 2 ≤ data.length)
    (hs : 1 ≤ num_samples) (hb : 1 ≤ batch) :
    Trainer.train_files data ≠ [] ∧
      0 < Trainer.epochSteps data num_samples batch := by
  have hsplit : 1 ≤ Trainer.splitIndex data.length := by
    rw [Trainer.splitIndex]
    rw [Nat.le_div_iff_mul_le (by omega)]
    omega
  have hlen : 0 < (Trainer.train_files data).length := by
    rw [Trainer.train_files, List.length_take]
    omega
  refine ⟨List.ne_nil_of_length_pos hlen, ?_⟩
  rw [Trainer.epochSteps, Trainer.numBatches]
  have hsize : 1 ≤ (Trainer.train_files data).length * num_samples :=
    Nat.one_le_iff_ne_zero.mpr (Nat.mul_ne_zero (by omega) (by omega))
  rw [Nat.lt_iff_add_one_le, Nat.le_div_iff_mul_le (by omega)]
  omega

/-- Witness for C9 (amended): a two-element dataset with 15 samples per
image and batch size 1. -/
theorem train_split_nonempty_of_two_witness :
    Trainer.train_files ["a.tif", "b.tif"] ≠ [] ∧
      0 < Trainer.epochSteps ["a.tif", "b.tif"] 15 1 :=
  train_split_nonempty_of_two ["a.tif", "b.tif"] 15 1 (by decide)
    (by decide) (by decide)

/-- C10: `remove_from_viewer` always leaves `global_launched_before`
false, whether or not the dock-widget removal raises `LookupError`;
consequently a subsequent first `run_review` opens no new window in any
state and, whenever it reaches the launch (that is, except in the
empty-label-path folder-mode-off state where it dies on
`UnboundLocalError` first), it launches in the current viewer; `build`
shows no active-session warning. -/
theorem remove_from_viewer_resets_flag (s : Review.RState) :
    (Review.remove_from_viewer s).launched_before = false ∧
    (Review.run_review_update (Review.remove_from_viewer s)).2 = false ∧
    Review.ReviewStep.launchInNewWindow ∉
      Review.run_review_trace (Review.remove_from_viewer s) ∧
    (¬(s.label_path = "" ∧ s.as_folder = false) →
      Review.ReviewStep.launchInCurrentViewer ∈
        Review.run_review_trace (Review.remove_from_viewer s)) ∧
    Review.buildWarnsActiveSession (Review.remove_from_viewer s) = false := by
  have hflag : (Review.remove_from_viewer s).launched_before = false := by
    by_cases hb : s.launched_before = true <;>
      by_cases hd : s.docked <;>
        simp [Review.remove_from_viewer, hb, hd]
  have hlp : (Review.remove_from_viewer s).label_path = s.label_path := by
    by_cases hb : s.launched_before = true <;>
      by_cases hd : s.docked <;>
        simp [Review.remove_from_viewer, hb, hd]
  have hfm : (Review.remove_from_viewer s).as_folder = s.as_folder := by
    by_cases hb : s.launched_before = true <;>
      by_cases hd : s.docked <;>
        simp [Review.remove_from_viewer, hb, hd]
  refine ⟨hflag, ?_, ?_, ?_, ?_⟩
  · by_cases hl : s.label_path = "" <;>
      by_cases hf : s.as_folder <;>
        simp [Review.run_review_update, hflag, hlp, hfm, hl, hf]
  · by_cases hl : s.label_path = "" <;>
      by_cases hf : s.as_folder <;>
        simp [Review.run_review_trace, Review.launchSteps, hflag, hlp, hfm,
          hl, hf]
  · intro hok
    by_cases hl : s.label_path = "" <;>
      by_cases hf : s.as_folder <;>
        simp_all [Review.run_review_trace, Review.launchSteps, hlp, hfm]
  · simpa [Review.buildWarnsActiveSession] using hflag

/-- Witness for C10, at a docked widget with both paths set and an
active session flag: after the manual close the flag is false, no new
window opens and the next launch uses the current viewer. -/
theorem remove_from_viewer_resets_flag_witness :
    (Review.remove_from_viewer ⟨"im.tif", "lab.tif", false, true, true⟩
        ).launched_before = false ∧
    (Review.run_review_update
        (Review.remove_from_viewer
          ⟨"im.tif", "lab.tif", false, true, true⟩)).2 = false ∧
    Review.ReviewStep.launchInNewWindow ∉
      Review.run_review_trace
        (Review.remove_from_viewer
          ⟨"im.tif", "lab.tif", false, true, true⟩) ∧
    Review.ReviewStep.launchInCurrentViewer ∈
      Review.run_review_trace
        (Review.remove_from_viewer
          ⟨"im.tif", "lab.tif", false, true, true⟩) ∧
    Review.buildWarnsActiveSession
      (Review.remove_from_viewer
        ⟨"im.tif", "lab.tif", false, true, true⟩) = false :=
  ⟨(remove_from_viewer_resets_flag
      ⟨"im.tif", "lab.tif", false, true, true⟩).1,
   (remove_from_viewer_resets_flag
      ⟨"im.tif", "lab.tif", false, true, true⟩).2.1,
   (remove_from_viewer_resets_flag
      ⟨"im.tif", "lab.tif", false, true, true⟩).2.2.1,
   (remove_from_viewer_resets_flag
      ⟨"im.tif", "lab.tif", false, true, true⟩).2.2.2.1 (by decide),
   (remove_from_viewer_resets_flag
      ⟨"im.tif", "lab.tif", false, true, true⟩).2.2.2.2⟩

end CellSeg
